import Mathlib

/-!
Shallow embedding of `src/mcp-server.py` from the railway-reservation-system-mcp
repository, together with models (from the specification) of the reservation
engine components that the repository's source does not implement.

The Python source defines a single tool, `check_seat_availability`, which
returns a hardcoded availability dictionary; its only input-dependent fields
are the echoed arguments, the `class` field of each alternate option, and the
`last_updated` wall-clock timestamp.  The wall clock (`datetime.now()` in the
source) is made an explicit `now : String` parameter here.  Prices appear in
the source as the float literals `1250.0`, `1275.0`, `1300.0`, `1200.0`; they
are integral values and are modelled as exact naturals.
-/

/-- Route sub-dictionary of `train_details` (source lines 124-130). -/
structure Route where
  start_station : String
  end_station : String
  departure_time : String
  arrival_time : String
  duration : String
  deriving DecidableEq

/-- The `train_details` dictionary (source lines 120-131). -/
structure TrainDetails where
  train_name : String
  train_number : String
  travel_date : String
  route : Route
  deriving DecidableEq

/-- One berth entry of `berth_availability` (source lines 138-152). -/
structure BerthInfo where
  total : Nat
  available : Nat
  price : Nat
  deriving DecidableEq

/-- The `berth_availability` dictionary (source lines 137-153). -/
structure BerthAvailability where
  upper : BerthInfo
  middle : BerthInfo
  lower : BerthInfo
  deriving DecidableEq

/-- The per-class value of `class_availability` (source lines 133-157). -/
structure ClassInfo where
  total_seats : Nat
  available_seats : Nat
  waiting_list : Nat
  berth_availability : BerthAvailability
  status : String
  base_fare : Nat
  booking_status : String
  deriving DecidableEq

/-- The `cancellation_charges` dictionary (source lines 162-166).  The field
`hours_4_to_12` renders the source key `"4_to_12_hours"`, which is not a legal
Lean identifier. -/
structure CancellationCharges where
  upto_4_hours : String
  hours_4_to_12 : String
  after_12_hours : String
  deriving DecidableEq

/-- The `additional_info` dictionary (source lines 159-169). -/
structure AdditionalInfo where
  tatkal_available : Bool
  premium_tatkal_available : Bool
  cancellation_charges : CancellationCharges
  booking_counter : String
  last_updated : String
  deriving DecidableEq

/-- One entry of `alternate_options` (source lines 171-184).  The field
`class_` renders the source key `"class"`, a Lean keyword. -/
structure AlternateOption where
  train_name : String
  train_number : String
  departure_time : String
  available_seats : Nat
  class_ : String
  deriving DecidableEq

/-- The whole availability dictionary returned by the tool (source lines
119-186).  `class_availability` is a Python dict with a single key; it is
modelled as an association list. -/
structure AvailabilityData where
  train_details : TrainDetails
  class_availability : List (String × ClassInfo)
  additional_info : AdditionalInfo
  alternate_options : List AlternateOption
  deriving DecidableEq

/-- The per-class record placed under the `travel_class` key (source lines
134-156).  The `status` field keeps the source's literal condition
`"Available" if 18 > 0 else "Waiting List"`. -/
def sampleClassInfo : ClassInfo :=
  { total_seats := 72
    available_seats := 18
    waiting_list := 5
    berth_availability :=
      { upper := { total := 24, available := 6, price := 1250 }
        middle := { total := 24, available := 4, price := 1275 }
        lower := { total := 24, available := 8, price := 1300 } }
    status := if (18 : Nat) > 0 then "Available" else "Waiting List"
    base_fare := 1200
    booking_status := "OPEN" }

/-- `check_seat_availability` (source lines 97-188).  The source's
`datetime.now().strftime(...)` call is modelled by the explicit `now`
parameter; everything else is the hardcoded `availability_data` literal. -/
def check_seat_availability (train_name travel_date start_station end_station
    travel_class : String) (now : String) : AvailabilityData :=
  { train_details :=
      { train_name := train_name
        train_number := "12001"
        travel_date := travel_date
        route :=
          { start_station := start_station
            end_station := end_station
            departure_time := "08:30"
            arrival_time := "14:45"
            duration := "6h 15m" } }
    class_availability := [(travel_class, sampleClassInfo)]
    additional_info :=
      { tatkal_available := true
        premium_tatkal_available := false
        cancellation_charges :=
          { upto_4_hours := "25% of fare"
            hours_4_to_12 := "50% of fare"
            after_12_hours := "No refund" }
        booking_counter := "IRCTC Online"
        last_updated := now }
    alternate_options :=
      [ { train_name := "Shatabdi Express"
          train_number := "12002"
          departure_time := "10:15"
          available_seats := 32
          class_ := travel_class }
      , { train_name := "Mail Express"
          train_number := "12003"
          departure_time := "16:30"
          available_seats := 45
          class_ := travel_class } ] }

/-- `handle_call_tool` (source lines 73-94): dispatches a tool call, raising
`ValueError` for an unknown tool name; the raise is modelled as `Except.error`.
Arguments are passed positionally in the source's order. -/
def handle_call_tool (name : String) (train_name travel_date start_station
    end_station travel_class : String) (now : String) :
    Except String AvailabilityData :=
  if name = "check_seat_availability" then
    .ok (check_seat_availability train_name travel_date start_station
      end_station travel_class now)
  else
    .error ("Unknown tool: " ++ name)

/-- Modelled from the spec: the refund policy of section 4.3 step 4 — the
repository's source contains no cancellation logic, only the availability
stub.  `specRetainedPercent h` is the percentage of the fare retained as
cancellation charge when cancelling `h` hours before departure: 12h or more
yields a full refund (0 retained), 4-12h retains 50%, under 4h retains 75%. -/
def specRetainedPercent (hoursBeforeDeparture : Nat) : Nat :=
  if 12 ≤ hoursBeforeDeparture then 0
  else if 4 ≤ hoursBeforeDeparture then 50
  else 75

/-- A charge-tier string states that `p` percent of the fare is retained
exactly when it reads like the source's tier strings, `"<p>% of fare"`. -/
def statesPercent (s : String) (p : Nat) : Prop :=
  s = toString p ++ "% of fare"

instance (s : String) (p : Nat) : Decidable (statesPercent s p) := by
  unfold statesPercent; infer_instance

/-- Modelled from the spec: booking status of section 3 — the repository's
source implements no Booking record. -/
inductive BookingStatus where
  | CONFIRMED
  | WAITLISTED
  | CANCELLED
  deriving DecidableEq

/-- Modelled from the spec: the InventoryLedger view of one InventoryKey
(sections 4.1 and 4.2) — `available` seats and the length of the key's
waitlist.  The repository's source has no ledger. -/
structure LedgerState where
  available : Nat
  waitlist : Nat
  deriving DecidableEq

/-- Modelled from the spec: one `Book(count=1)` call of section 4.3 — decrement
if a seat is available (CONFIRMED), otherwise enqueue on the waitlist
(WAITLISTED).  The repository's source has no booking operation. -/
def bookOne (s : LedgerState) : LedgerState × BookingStatus :=
  if 0 < s.available then
    ({ s with available := s.available - 1 }, .CONFIRMED)
  else
    ({ s with waitlist := s.waitlist + 1 }, .WAITLISTED)

/-- Modelled from the spec: `n` Book(count=1) calls against one InventoryKey.
Section 5 serializes all mutations on one key behind a per-key
mutual-exclusion scope, so any concurrent schedule of identical Book calls
executes as this sequential composition. -/
def runBooks : Nat → LedgerState → LedgerState × List BookingStatus
  | 0, s => (s, [])
  | n + 1, s =>
    let p := bookOne s
    let q := runBooks n p.1
    (q.1, p.2 :: q.2)

/-- Modelled from the spec: a Booking record (section 3), reduced to the
fields the Cancel protocol consults. -/
structure BookingRec where
  id : Nat
  status : BookingStatus
  fare : Nat
  deriving DecidableEq

/-- Modelled from the spec: the caller-facing cancellation errors of
section 7. -/
inductive CancelError where
  | NotFound
  | AlreadyCancelled
  deriving DecidableEq

/-- Modelled from the spec: the ReservationCoordinator state for one
InventoryKey — available seats, the FIFO waitlist (booking ids in enqueue
order), and the booking store. -/
structure CoordinatorState where
  available : Nat
  queue : List Nat
  bookings : List BookingRec
  deriving DecidableEq

/-- Modelled from the spec: status transition of one booking in the store. -/
def setStatus (bs : List BookingRec) (bid : Nat) (st : BookingStatus) :
    List BookingRec :=
  bs.map fun b => if b.id = bid then { b with status := st } else b

/-- Modelled from the spec: the `Cancel(bookingId)` protocol of section 4.3 —
look up the booking, failing with `NotFound` when absent and with
`AlreadyCancelled` when already CANCELLED; for a CONFIRMED booking increment
the ledger and promote the front waitlist entry inside the same scope; for a
WAITLISTED booking withdraw it from the queue; apply the refund tiers of
`specRetainedPercent`.  On success it returns the new state and the refund;
an error returns no state, the caller's state being untouched. -/
def cancel (st : CoordinatorState) (bid : Nat) (hoursBeforeDeparture : Nat) :
    Except CancelError (CoordinatorState × Nat) :=
  match st.bookings.find? (fun b => b.id = bid) with
  | none => .error .NotFound
  | some b =>
    match b.status with
    | .CANCELLED => .error .AlreadyCancelled
    | .CONFIRMED =>
      let refund :=
        b.fare - b.fare * specRetainedPercent hoursBeforeDeparture / 100
      match st.queue with
      | [] =>
        .ok ({ available := st.available + 1
               queue := []
               bookings := setStatus st.bookings bid .CANCELLED }, refund)
      | w :: rest =>
        .ok ({ available := st.available
               queue := rest
               bookings :=
                 setStatus (setStatus st.bookings bid .CANCELLED)
                   w .CONFIRMED }, refund)
    | .WAITLISTED =>
      let refund :=
        b.fare - b.fare * specRetainedPercent hoursBeforeDeparture / 100
      .ok ({ st with
             queue := st.queue.filter (fun x => x ≠ bid)
             bookings := setStatus st.bookings bid .CANCELLED }, refund)

/-- Projection forgetting the `last_updated` timestamp, the only field of the
response that depends on the wall clock. -/
def eraseTimestamp (d : AvailabilityData) : AvailabilityData :=
  { d with additional_info := { d.additional_info with last_updated := "" } }

/-- Projection forgetting the echoed argument fields of a response: the train
name, travel date, start and end stations, the class key of
`class_availability`, and the `last_updated` timestamp.  This renders claim
C9 as stated, which treats `alternate_options` as constant. -/
def eraseEchoedFields (d : AvailabilityData) : AvailabilityData :=
  { d with
    train_details :=
      { d.train_details with
        train_name := ""
        travel_date := ""
        route :=
          { d.train_details.route with
            start_station := ""
            end_station := "" } }
    class_availability := d.class_availability.map (fun p => ("", p.2))
    additional_info := { d.additional_info with last_updated := "" } }

/-- Projection additionally forgetting the `class` field of each alternate
option, which the code also echoes from the `travel_class` argument. -/
def eraseEchoedAndAlternateClass (d : AvailabilityData) : AvailabilityData :=
  { eraseEchoedFields d with
    alternate_options := d.alternate_options.map (fun o => { o with class_ := "" }) }

theorem charge_strings_facts :
    statesPercent "50% of fare" 50 ∧ ¬ statesPercent "25% of fare" 75 := by
  decide

theorem sampleClassInfo_status_fact :
    (sampleClassInfo.status = "Available" ↔ 0 < sampleClassInfo.available_seats) ∧
    (¬ 0 < sampleClassInfo.available_seats →
      sampleClassInfo.status = "Waiting List") := by
  decide

theorem sampleClassInfo_bounds_fact :
    sampleClassInfo.available_seats ≤ sampleClassInfo.total_seats ∧
    sampleClassInfo.total_seats - sampleClassInfo.available_seats
      ≤ sampleClassInfo.total_seats ∧
    sampleClassInfo.berth_availability.upper.available
      ≤ sampleClassInfo.berth_availability.upper.total ∧
    sampleClassInfo.berth_availability.middle.available
      ≤ sampleClassInfo.berth_availability.middle.total ∧
    sampleClassInfo.berth_availability.lower.available
      ≤ sampleClassInfo.berth_availability.lower.total ∧
    sampleClassInfo.berth_availability.upper.total -
        sampleClassInfo.berth_availability.upper.available
      ≤ sampleClassInfo.berth_availability.upper.total ∧
    sampleClassInfo.berth_availability.middle.total -
        sampleClassInfo.berth_availability.middle.available
      ≤ sampleClassInfo.berth_availability.middle.total ∧
    sampleClassInfo.berth_availability.lower.total -
        sampleClassInfo.berth_availability.lower.available
      ≤ sampleClassInfo.berth_availability.lower.total := by
  decide

/-- Claim C1, counterexample: the response's cancellation-charge tier for
cancelling under 4 hours before departure reads "25% of fare", whereas the
specified schedule retains 75% of the fare there, so the reported tiers do
not state the specified schedule. -/
theorem c1_counterexample :
    (check_seat_availability "Rajdhani Express" "2025-07-15" "New Delhi (NDLS)"
        "Mumbai Central (BCT)" "AC2"
        "2025-07-15 08:00:00").additional_info.cancellation_charges.upto_4_hours
      = "25% of fare" ∧
    specRetainedPercent 2 = 75 ∧
    ¬ statesPercent
        ((check_seat_availability "Rajdhani Express" "2025-07-15"
            "New Delhi (NDLS)" "Mumbai Central (BCT)" "AC2"
            "2025-07-15 08:00:00").additional_info.cancellation_charges.upto_4_hours)
        (specRetainedPercent 2) := by
  refine ⟨rfl, rfl, ?_⟩
  decide

/-- Claim C1, amended: the specified refund schedule retains 0% at 12h or
more, 50% between 4 and 12 hours and 75% under 4 hours, but every
availability response reports the constant tier strings upto_4_hours =
"25% of fare", 4_to_12_hours = "50% of fare", after_12_hours = "No refund";
only the 4-to-12-hours tier states the schedule's percentage, the under-4-hours
tier does not. -/
theorem c1_amended (train_name travel_date start_station end_station
    travel_class now : String) :
    specRetainedPercent 12 = 0 ∧ specRetainedPercent 6 = 50 ∧
    specRetainedPercent 2 = 75 ∧
    (check_seat_availability train_name travel_date start_station end_station
        travel_class now).additional_info.cancellation_charges
      = { upto_4_hours := "25% of fare"
          hours_4_to_12 := "50% of fare"
          after_12_hours := "No refund" } ∧
    statesPercent
      ((check_seat_availability train_name travel_date start_station
          end_station travel_class
          now).additional_info.cancellation_charges.hours_4_to_12)
      (specRetainedPercent 6) ∧
    ¬ statesPercent
        ((check_seat_availability train_name travel_date start_station
            end_station travel_class
            now).additional_info.cancellation_charges.upto_4_hours)
        (specRetainedPercent 2) :=
  ⟨rfl, rfl, rfl, rfl, charge_strings_facts.1, charge_strings_facts.2⟩

/-- Claim C2: for every argument tuple the availability tool call succeeds
with a snapshot and never raises — the only error path of the dispatcher is
an unknown tool name. -/
theorem c2_always_ok (train_name travel_date start_station end_station
    travel_class now : String) :
    handle_call_tool "check_seat_availability" train_name travel_date
        start_station end_station travel_class now
      = .ok (check_seat_availability train_name travel_date start_station
          end_station travel_class now) ∧
    (handle_call_tool "check_seat_availability" train_name travel_date
        start_station end_station travel_class now).isOk = true := by
  constructor <;> rfl

/-- Claim C3, counterexample: two calls with identical arguments made at
different wall-clock instants return different results, because
`last_updated` records the clock; the original claim's determinism fails. -/
theorem c3_counterexample :
    check_seat_availability "Rajdhani Express" "2025-07-15" "New Delhi (NDLS)"
        "Mumbai Central (BCT)" "AC2" "2025-07-15 08:00:00"
      ≠ check_seat_availability "Rajdhani Express" "2025-07-15"
          "New Delhi (NDLS)" "Mumbai Central (BCT)" "AC2"
          "2025-07-15 08:00:01" := by
  decide

/-- Claim C3, amended: the call mutates no program state (it is a pure
function of its arguments and of the clock), and any two calls with the same
arguments agree on every field except `additional_info.last_updated`, which
records the wall-clock time of the call. -/
theorem c3_deterministic_up_to_timestamp (train_name travel_date start_station
    end_station travel_class now1 now2 : String) :
    eraseTimestamp (check_seat_availability train_name travel_date
        start_station end_station travel_class now1)
      = eraseTimestamp (check_seat_availability train_name travel_date
          start_station end_station travel_class now2) := rfl

/-- Claim C4: in every returned snapshot the per-class status flag is
"Available" exactly when the class's available seat count is positive, and
"Waiting List" otherwise. -/
theorem c4_status_iff_available (train_name travel_date start_station
    end_station travel_class now : String) :
    ∀ p ∈ (check_seat_availability train_name travel_date start_station
        end_station travel_class now).class_availability,
      (p.2.status = "Available" ↔ 0 < p.2.available_seats) ∧
      (¬ 0 < p.2.available_seats → p.2.status = "Waiting List") := by
  intro p hp
  have hp' : p = (travel_class, sampleClassInfo) := by
    simpa [check_seat_availability] using hp
  subst hp'
  exact sampleClassInfo_status_fact

/-- Witness for claim C4 at the source's standalone-demo arguments. -/
theorem c4_witness :
    ("AC2", sampleClassInfo) ∈ (check_seat_availability "Rajdhani Express"
        "2025-07-15" "New Delhi (NDLS)" "Mumbai Central (BCT)" "AC2"
        "2025-07-15 08:00:00").class_availability ∧
    ((("AC2", sampleClassInfo)).2.status = "Available" ↔
      0 < (("AC2", sampleClassInfo)).2.available_seats) ∧
    (¬ 0 < (("AC2", sampleClassInfo)).2.available_seats →
      (("AC2", sampleClassInfo)).2.status = "Waiting List") :=
  ⟨by decide,
   c4_status_iff_available "Rajdhani Express" "2025-07-15" "New Delhi (NDLS)"
     "Mumbai Central (BCT)" "AC2" "2025-07-15 08:00:00"
     ("AC2", sampleClassInfo) (by decide)⟩

/-- Claim C5: in every returned snapshot, for the class and for each berth
type, the available count does not exceed the total, so the implied booked
count (total minus available, a natural number, hence nonnegative) is at most
the total. -/
theorem c5_inventory_bounds (train_name travel_date start_station end_station
    travel_class now : String) :
    ∀ p ∈ (check_seat_availability train_name travel_date start_station
        end_station travel_class now).class_availability,
      p.2.available_seats ≤ p.2.total_seats ∧
      p.2.total_seats - p.2.available_seats ≤ p.2.total_seats ∧
      p.2.berth_availability.upper.available ≤ p.2.berth_availability.upper.total ∧
      p.2.berth_availability.middle.available ≤ p.2.berth_availability.middle.total ∧
      p.2.berth_availability.lower.available ≤ p.2.berth_availability.lower.total ∧
      p.2.berth_availability.upper.total - p.2.berth_availability.upper.available
        ≤ p.2.berth_availability.upper.total ∧
      p.2.berth_availability.middle.total - p.2.berth_availability.middle.available
        ≤ p.2.berth_availability.middle.total ∧
      p.2.berth_availability.lower.total - p.2.berth_availability.lower.available
        ≤ p.2.berth_availability.lower.total := by
  intro p hp
  have hp' : p = (travel_class, sampleClassInfo) := by
    simpa [check_seat_availability] using hp
  subst hp'
  exact sampleClassInfo_bounds_fact

/-- Witness for claim C5 at the source's standalone-demo arguments. -/
theorem c5_witness :
    ("AC2", sampleClassInfo) ∈ (check_seat_availability "Rajdhani Express"
        "2025-07-15" "New Delhi (NDLS)" "Mumbai Central (BCT)" "AC2"
        "2025-07-15 08:00:00").class_availability ∧
    (("AC2", sampleClassInfo)).2.available_seats
      ≤ (("AC2", sampleClassInfo)).2.total_seats :=
  ⟨by decide,
   (c5_inventory_bounds "Rajdhani Express" "2025-07-15" "New Delhi (NDLS)"
     "Mumbai Central (BCT)" "AC2" "2025-07-15 08:00:00"
     ("AC2", sampleClassInfo) (by decide)).1⟩

/-- Number of bookings in a result list that carry a given status. -/
def countStatus (st : BookingStatus) : List BookingStatus → Nat
  | [] => 0
  | r :: rs => (if r = st then 1 else 0) + countStatus st rs

theorem runBooks_spec (n : Nat) (s : LedgerState) :
    countStatus .CONFIRMED (runBooks n s).2 = min n s.available ∧
    countStatus .WAITLISTED (runBooks n s).2 = n - s.available ∧
    (runBooks n s).2.length = n ∧
    (runBooks n s).1.available = s.available - n := by
  induction n generalizing s with
  | zero => simp [runBooks, countStatus]
  | succ n ih =>
    by_cases h : 0 < s.available
    · obtain ⟨hc, hw, hl, ha⟩ := ih { s with available := s.available - 1 }
      simp only [runBooks, bookOne, if_pos h, countStatus, List.length_cons]
      simp only at hc hw hl ha
      refine ⟨?_, ?_, ?_, ?_⟩ <;> simp [hc, hw, hl, ha] <;> omega
    · obtain ⟨hc, hw, hl, ha⟩ := ih { s with waitlist := s.waitlist + 1 }
      simp only [runBooks, bookOne, if_neg h, countStatus, List.length_cons]
      simp only at hc hw hl ha
      refine ⟨?_, ?_, ?_, ?_⟩ <;> simp [hc, hw, hl, ha] <;> omega

/-- Claim C6: against one InventoryKey with `K` available seats and `N > K`
Book(count=1) calls — serialized in some order by the spec's per-key
mutual-exclusion scope, so any concurrent schedule runs as this sequence —
exactly `K` calls return CONFIRMED, the other `N - K` return WAITLISTED,
every call returns a booking (no silent failure), and the ledger ends at 0
available (each seat allocated once). -/
theorem c6_no_oversell (N K : Nat) (h : K < N) :
    countStatus .CONFIRMED (runBooks N { available := K, waitlist := 0 }).2 = K ∧
    countStatus .WAITLISTED (runBooks N { available := K, waitlist := 0 }).2
      = N - K ∧
    (runBooks N { available := K, waitlist := 0 }).2.length = N ∧
    (runBooks N { available := K, waitlist := 0 }).1.available = 0 := by
  obtain ⟨hc, hw, hl, ha⟩ := runBooks_spec N { available := K, waitlist := 0 }
  simp only at hc hw hl ha
  exact ⟨by omega, by omega, hl, by omega⟩

/-- Witness for claim C6 at the spec's scenario of section 8: 25 booking
calls against 24 available seats. -/
theorem c6_witness :
    24 < 25 ∧
    (countStatus .CONFIRMED
        (runBooks 25 { available := 24, waitlist := 0 }).2 = 24 ∧
     countStatus .WAITLISTED
        (runBooks 25 { available := 24, waitlist := 0 }).2 = 25 - 24 ∧
     (runBooks 25 { available := 24, waitlist := 0 }).2.length = 25 ∧
     (runBooks 25 { available := 24, waitlist := 0 }).1.available = 0) :=
  ⟨by decide, c6_no_oversell 25 24 (by decide)⟩

/-- Claim C7: cancelling a booking whose status is already CANCELLED fails
with the `AlreadyCancelled` error; the result carries no successor state, so
the ledger, the waitlist queue and the booking store are untouched. -/
theorem c7_cancel_already_cancelled (st : CoordinatorState) (bid hrs : Nat)
    (b : BookingRec)
    (hfind : st.bookings.find? (fun x => x.id = bid) = some b)
    (hcanc : b.status = .CANCELLED) :
    cancel st bid hrs = .error .AlreadyCancelled := by
  simp [cancel, hfind, hcanc]

/-- Witness for claim C7: one already-cancelled booking with id 1. -/
theorem c7_witness :
    (({ available := 0, queue := [],
        bookings := [{ id := 1, status := .CANCELLED, fare := 1250 }] } :
          CoordinatorState).bookings.find? (fun x => x.id = 1)
      = some { id := 1, status := .CANCELLED, fare := 1250 }) ∧
    ({ id := 1, status := .CANCELLED, fare := 1250 } : BookingRec).status
      = .CANCELLED ∧
    cancel
      { available := 0, queue := [],
        bookings := [{ id := 1, status := .CANCELLED, fare := 1250 }] } 1 12
      = .error .AlreadyCancelled :=
  ⟨by decide, by decide,
   c7_cancel_already_cancelled
     { available := 0, queue := [],
       bookings := [{ id := 1, status := .CANCELLED, fare := 1250 }] }
     1 12 { id := 1, status := .CANCELLED, fare := 1250 }
     (by decide) (by decide)⟩

/-- Claim C8: the snapshot echoes its arguments exactly — train name, travel
date, start and end stations — and `class_availability` holds exactly one
key, the `travel_class` argument. -/
theorem c8_echoes_arguments (train_name travel_date start_station end_station
    travel_class now : String) :
    (check_seat_availability train_name travel_date start_station end_station
        travel_class now).train_details.train_name = train_name ∧
    (check_seat_availability train_name travel_date start_station end_station
        travel_class now).train_details.travel_date = travel_date ∧
    (check_seat_availability train_name travel_date start_station end_station
        travel_class now).train_details.route.start_station = start_station ∧
    (check_seat_availability train_name travel_date start_station end_station
        travel_class now).train_details.route.end_station = end_station ∧
    (check_seat_availability train_name travel_date start_station end_station
        travel_class now).class_availability.map Prod.fst = [travel_class] :=
  ⟨rfl, rfl, rfl, rfl, rfl⟩

/-- Claim C9, counterexample: two calls differing only in `travel_class`
still differ after the echoed argument fields and the timestamp are erased,
because each alternate option's `class` field also echoes `travel_class` —
so the alternate options are not a constant independent of the input. -/
theorem c9_counterexample :
    eraseEchoedFields (check_seat_availability "Rajdhani Express" "2025-07-15"
        "New Delhi (NDLS)" "Mumbai Central (BCT)" "AC2" "2025-07-15 08:00:00")
      ≠ eraseEchoedFields (check_seat_availability "Rajdhani Express"
          "2025-07-15" "New Delhi (NDLS)" "Mumbai Central (BCT)" "AC1"
          "2025-07-15 08:00:00") := by
  decide

/-- Claim C9, amended: once the echoed argument fields, the timestamp, and
also the `class` field inside each alternate option are erased, any two
calls — whatever their arguments and clock — return the same snapshot; every
remaining field is a constant of the program. -/
theorem c9_constant_up_to_echo (tn1 td1 ss1 es1 tc1 now1
    tn2 td2 ss2 es2 tc2 now2 : String) :
    eraseEchoedAndAlternateClass
        (check_seat_availability tn1 td1 ss1 es1 tc1 now1)
      = eraseEchoedAndAlternateClass
          (check_seat_availability tn2 td2 ss2 es2 tc2 now2) := rfl

/-- Claim C10: every snapshot's `alternate_options` is exactly the two-entry
list whose entries carry the `travel_class` argument as their class and the
strictly positive seat counts 32 and 45. -/
theorem c10_alternate_options (train_name travel_date start_station
    end_station travel_class now : String) :
    (check_seat_availability train_name travel_date start_station end_station
        travel_class now).alternate_options
      = [ { train_name := "Shatabdi Express", train_number := "12002",
            departure_time := "10:15", available_seats := 32,
            class_ := travel_class }
        , { train_name := "Mail Express", train_number := "12003",
            departure_time := "16:30", available_seats := 45,
            class_ := travel_class } ] ∧
    (check_seat_availability train_name travel_date start_station end_station
        travel_class now).alternate_options.length = 2 ∧
    (check_seat_availability train_name travel_date start_station end_station
        travel_class now).alternate_options.map
        (fun o => o.available_seats) = [32, 45] ∧
    (check_seat_availability train_name travel_date start_station end_station
        travel_class now).alternate_options.map (fun o => o.class_)
      = [travel_class, travel_class] ∧
    (0 : Nat) < 32 ∧ (0 : Nat) < 45 :=
  ⟨rfl, rfl, rfl, rfl, by decide, by decide⟩
